import Mathlib

/-!
Verification of the marketing-data provider-directory scrapers.

This file gives a shallow embedding of the pure/data-flow parts of the
repository (src/providers/uhc.py, src/providers/anthem.py,
src/providers/psychology_today.py, src/utils/state_license_boards.py) and
proves or refutes the frozen claims about them.

Modelling conventions:
- Python strings are Lean `String`, with the relevant Python string
  operations (`strip`, `split`, substring test, `int(...)`) re-implemented
  over `List Char` to match CPython semantics on the ASCII inputs the
  scrapers see.
- A rendered result card is a `Card`: for each per-card selector the
  element text if the element list is non-empty (`Option String`), plus a
  `raises` flag modelling a card whose element accesses raise any
  exception (e.g. a stale element); the per-card `except` handler turns
  that into an empty dict (UHC) or `None` (Anthem / Psychology Today),
  both falsy, so the card is dropped.
- The browser environment of one `_extract_providers` call is a structure
  recording the facts the code queries: the no-results marker, the
  pagination elements, the cards rendered while page `p` is current, and
  whether the next-page transition out of page `p` completes; any failure
  of that transition (the caught exception tuple, or the IndexError /
  timeout routed to the enclosing catch-all) ends the walk with the
  records collected so far, which is what `navOk p = false` models.
-/

/-- Python `str.isspace` characters relevant here (the ASCII whitespace
that `str.strip()` and `int()` remove). -/
def pyIsSpace (c : Char) : Bool :=
  c = ' ' || c = '\t' || c = '\n' || c = '\r' || c = '\x0b' || c = '\x0c'

/-- Python regex `\w` on ASCII text: letters, digits, underscore. -/
def wordChar (c : Char) : Bool :=
  ('a' ≤ c && c ≤ 'z') || ('A' ≤ c && c ≤ 'Z') || ('0' ≤ c && c ≤ '9') || c = '_'

/-- Python regex `\d` on ASCII text. -/
def digitChar (c : Char) : Bool :=
  '0' ≤ c && c ≤ '9'

/-- ASCII letter, used only to state the well-formedness predicate of C1. -/
def letterChar (c : Char) : Bool :=
  ('a' ≤ c && c ≤ 'z') || ('A' ≤ c && c ≤ 'Z')

/-- Strip on a character list: drop whitespace from both ends. -/
def stripList (l : List Char) : List Char :=
  ((l.dropWhile pyIsSpace).reverse.dropWhile pyIsSpace).reverse

/-- Python `str.strip()` (no argument: whitespace on both ends). -/
def pyStrip (s : String) : String :=
  String.mk (stripList s.data)

/-- Helper for `pySplitChar`: accumulate the current field (reversed) while
scanning; a separator ends the field. -/
def splitCharAux (sep : Char) : List Char → List Char → List (List Char)
  | acc, [] => [acc.reverse]
  | acc, c :: cs =>
    if c = sep then acc.reverse :: splitCharAux sep [] cs
    else splitCharAux sep (c :: acc) cs

/-- Python `str.split(sep)` for a one-character separator: keeps empty
fields, result length = number of separators + 1. -/
def pySplitChar (sep : Char) (s : String) : List String :=
  (splitCharAux sep [] s.data).map String.mk

/-- Does `hay` start with `needle`? -/
def startsWithList : List Char → List Char → Bool
  | [], _ => true
  | _ :: _, [] => false
  | a :: as, b :: bs => a = b && startsWithList as bs

/-- Python `needle in hay` for strings: contiguous substring test. -/
def containsSub (needle : List Char) : List Char → Bool
  | [] => needle.isEmpty
  | c :: cs => startsWithList needle (c :: cs) || containsSub needle cs

/-- Numeric value of a digit list (most significant first). -/
def digitsToNat (l : List Char) : Nat :=
  l.foldl (fun acc c => 10 * acc + (c.toNat - 48)) 0

/-- Continuation of a Python int literal after at least one digit: more
digits, where a single underscore may stand between two digits. Returns the
digits only. -/
def pyIntTail : List Char → Option (List Char)
  | [] => some []
  | '_' :: cs =>
    match cs with
    | c :: rest => if digitChar c then (pyIntTail rest).map (fun ds => c :: ds) else none
    | [] => none
  | c :: cs => if digitChar c then (pyIntTail cs).map (fun ds => c :: ds) else none

/-- Parse the digit part of a Python `int(...)` literal: a non-empty digit
run in which single underscores may stand between two digits. Returns the
digits only. -/
def pyIntDigits : List Char → Option (List Char)
  | [] => none
  | c :: cs => if digitChar c then (pyIntTail cs).map (fun ds => c :: ds) else none

/-- Python `int(text)`: strip whitespace, optional sign, then digits (with
Python 3 underscore grouping); `none` models `ValueError`. -/
def pyInt (s : String) : Option Int :=
  match stripList s.data with
  | '-' :: rest => (pyIntDigits rest).map (fun ds => -(digitsToNat ds : Int))
  | '+' :: rest => (pyIntDigits rest).map (fun ds => (digitsToNat ds : Int))
  | t => (pyIntDigits t).map (fun ds => (digitsToNat ds : Int))

/-- One normalized provider record: the dict literal initialised at the top
of each `_extract_provider_data`, every field defaulting to the empty
string. -/
structure ProviderData where
  provider_id : String := ""
  provider_name : String := ""
  practice_name : String := ""
  specialties : String := ""
  address : String := ""
  city : String := ""
  state : String := ""
  zip_code : String := ""
  phone : String := ""
  accepting_new_patients : String := ""
  network : String := ""
  url : String := ""
deriving DecidableEq, Repr

/-- One rendered result card, abstracted over the site's selectors: for
each sub-element queried by `_extract_provider_data`, the element text when
the `find_elements` list is non-empty. `raises` models the card whose
element accesses raise (stale element etc.); the card-level handler then
returns a falsy value. -/
structure Card where
  nameText : Option String := none
  specialtyText : Option String := none
  addressText : Option String := none
  phoneText : Option String := none
  practiceText : Option String := none
  acceptingText : Option String := none
  providerIdText : Option String := none
  raises : Bool := false
deriving DecidableEq, Repr

/-- Match the suffix of `re.search(r"Page (\d+) of (\d+)", ...)` at the
current position: literal `Page `, digits, literal ` of `, digits. Greedy
`\d+` takes the maximal digit run (backtracking cannot help because the
following literal starts with a non-digit). -/
def matchPageAt (cs : List Char) : Option (Nat × Nat) :=
  match cs with
  | 'P' :: 'a' :: 'g' :: 'e' :: ' ' :: rest =>
    match rest.takeWhile digitChar with
    | [] => none
    | d1 =>
      match rest.dropWhile digitChar with
      | ' ' :: 'o' :: 'f' :: ' ' :: rest2 =>
        match rest2.takeWhile digitChar with
        | [] => none
        | d2 => some (digitsToNat d1, digitsToNat d2)
      | _ => none
  | _ => none

/-- `re.search(r"Page (\d+) of (\d+)", text)` over the whole text: leftmost
match, as CPython does. -/
def pageOfSearch : List Char → Option (Nat × Nat)
  | [] => none
  | c :: cs =>
    match matchPageAt (c :: cs) with
    | some r => some r
    | none => pageOfSearch cs

/-- Match `\s*(\w{2})\s*(\d{5})` right after a comma. Each greedy `\s*`
must consume the whole whitespace run: stopping earlier leaves a
whitespace character where a word/digit character is required. -/
def matchStZip (cs : List Char) : Option (String × String) :=
  match cs.dropWhile pyIsSpace with
  | a :: b :: rest =>
    if wordChar a && wordChar b then
      match rest.dropWhile pyIsSpace with
      | d1 :: d2 :: d3 :: d4 :: d5 :: _ =>
        if digitChar d1 && digitChar d2 && digitChar d3 && digitChar d4 && digitChar d5 then
          some (String.mk [a, b], String.mk [d1, d2, d3, d4, d5])
        else none
      | _ => none
    else none
  | _ => none

/-- `re.search(r"([^,]+),\s*(\w{2})\s*(\d{5})", text)`: scan for a comma
preceded by a non-empty comma-free run (the leftmost viable start gives
group 1 = everything since the previous comma or the start of the text);
the suffix after the comma is checked by `matchStZip`, and on failure the
search resumes after that comma. -/
def citySearchAux : List Char → List Char → Option (String × String × String)
  | _, [] => none
  | acc, c :: cs =>
    if c = ',' then
      if acc.isEmpty then citySearchAux [] cs
      else
        match matchStZip cs with
        | some (st, zp) => some (String.mk acc.reverse, st, zp)
        | none => citySearchAux [] cs
    else citySearchAux (c :: acc) cs

/-- `re.search(r"ID:\s*(\w+)", text)`: leftmost occurrence of `ID:`
followed by optional whitespace and a non-empty word-character run. -/
def idSearch : List Char → Option (List Char)
  | [] => none
  | c :: cs =>
    match c :: cs with
    | 'I' :: 'D' :: ':' :: rest =>
      match (rest.dropWhile pyIsSpace).takeWhile wordChar with
      | [] => idSearch cs
      | tok => some tok
    | _ => idSearch cs

/-- Python `min(xs, key=f)` accumulator: keep the first element attaining
the minimal key (replacement only on strictly smaller key). -/
def pyMinBy (f : Int → Nat) : Int → List Int → Int
  | best, [] => best
  | best, x :: xs => pyMinBy f (if f x < f best then x else best) xs

/-- Python `min(xs, key=f)` (raises on an empty list; the only call sites
pass the non-empty literal radius list, so the `[]` case is unreachable). -/
def pyMinKey (f : Int → Nat) : List Int → Int
  | [] => 0
  | x :: xs => pyMinBy f x xs

/-- The fixed radius options shared by both sites
(`available_radius = [5, 10, 15, 25, 50, 100]`). -/
def availableRadiusList : List Int := [5, 10, 15, 25, 50, 100]

/-- UHC `_enter_location`:
`closest_radius = min(available_radius, key=lambda x: abs(x - radius))`. -/
def UHC.closest_radius (radius : Int) : Int :=
  pyMinKey (fun x => (x - radius).natAbs) availableRadiusList

/-- Anthem `_set_radius`: identical selection expression. -/
def Anthem.closest_radius (radius : Int) : Int :=
  pyMinKey (fun x => (x - radius).natAbs) availableRadiusList

/-- The `while current_page <= total_pages` pagination loop, as the list of
page values `current_page` held at each execution of the loop body. The
fuel argument equals the remaining page budget `total - current + 1`, which
strictly decreases; it is exactly the number of iterations left when every
next-page transition succeeds, so the fueled function is the loop. After
the body runs for page `current < total`, `navOk current = false` models a
failed next-page transition (the caught exception tuple, or any error
routed to the enclosing catch-all), which ends the walk; at
`current = total` the loop ends normally. -/
def visitPagesAux (navOk : Int → Bool) (total : Int) : Nat → Int → List Int
  | 0, _ => []
  | fuel + 1, current =>
    if current ≤ total then
      if current < total then
        if navOk current then current :: visitPagesAux navOk total fuel (current + 1)
        else [current]
      else [current]
    else []

/-- Pages visited by the pagination loop started at `current`. -/
def visitPages (navOk : Int → Bool) (total current : Int) : List Int :=
  visitPagesAux navOk total (total + 1 - current).toNat current

/-- Shared card step: `provider_data["provider_name"] = name[0].text.strip()`
when the name element list is non-empty (UHC selector `h2`, Anthem and
Psychology Today selector `.provider-name`). -/
def setProviderName (card : Card) (d : ProviderData) : ProviderData :=
  match card.nameText with
  | some t => { d with provider_name := pyStrip t }
  | none => d

/-- Shared card step for the specialties element (`.specialty-list` on UHC,
`.specialty` on Anthem and Psychology Today). -/
def setSpecialties (card : Card) (d : ProviderData) : ProviderData :=
  match card.specialtyText with
  | some t => { d with specialties := pyStrip t }
  | none => d

/-- Shared card step for the phone element (`.phone-number` on UHC,
`.phone` elsewhere). -/
def setPhone (card : Card) (d : ProviderData) : ProviderData :=
  match card.phoneText with
  | some t => { d with phone := pyStrip t }
  | none => d

/-- Shared card step for the `.facility-name` element. -/
def setPracticeName (card : Card) (d : ProviderData) : ProviderData :=
  match card.practiceText with
  | some t => { d with practice_name := pyStrip t }
  | none => d

/-- Shared card step for the accepting-new-patients status element:
`"Yes" if "Yes" in status_text else "No"` on the stripped element text. -/
def setAccepting (card : Card) (d : ProviderData) : ProviderData :=
  match card.acceptingText with
  | some t =>
    { d with accepting_new_patients :=
        if containsSub ['Y', 'e', 's'] (stripList t.data) then "Yes" else "No" }
  | none => d

/-- Anthem / Psychology Today card step for the `.provider-id` element:
`re.search(r"ID:\s*(\w+)", id_text)` on the stripped text, group 1 on a
match. -/
def setProviderId (card : Card) (d : ProviderData) : ProviderData :=
  match card.providerIdText with
  | some t =>
    match idSearch (stripList t.data) with
    | some tok => { d with provider_id := String.mk tok }
    | none => d
  | none => d

/-- UHC address step (uhc.py lines 324-338): strip the element text, split
on newline; with at least two lines, line 1 is the street address, line 2
is split on commas, and the second comma field, stripped and split on a
single space, gives the state and zip tokens verbatim whenever at least
two space-separated fields exist. No shape validation is performed. -/
def UHC.setAddress (card : Card) (d : ProviderData) : ProviderData :=
  match card.addressText with
  | some t =>
    let address_parts := pySplitChar '\n' (pyStrip t)
    if 2 ≤ address_parts.length then
      let location_parts := pySplitChar ',' (address_parts.getD 1 "")
      if 2 ≤ location_parts.length then
        let state_zip := pySplitChar ' ' (pyStrip (location_parts.getD 1 ""))
        if 2 ≤ state_zip.length then
          { d with address := pyStrip (address_parts.getD 0 ""),
                   city := pyStrip (location_parts.getD 0 ""),
                   state := pyStrip (state_zip.getD 0 ""),
                   zip_code := pyStrip (state_zip.getD 1 "") }
        else
          { d with address := pyStrip (address_parts.getD 0 ""),
                   city := pyStrip (location_parts.getD 0 "") }
      else { d with address := pyStrip (address_parts.getD 0 "") }
    else d
  | none => d

/-- Anthem address step (anthem.py lines 377-390): strip the element text,
split on newline; with at least two lines, line 1 is the street address and
line 2 goes through `re.search(r"([^,]+),\s*(\w{2})\s*(\d{5})", ...)`,
whose groups (stripped) give city, state and zip on a match. -/
def Anthem.setAddress (card : Card) (d : ProviderData) : ProviderData :=
  match card.addressText with
  | some t =>
    let address_parts := pySplitChar '\n' (pyStrip t)
    if 2 ≤ address_parts.length then
      let d := { d with address := pyStrip (address_parts.getD 0 "") }
      match citySearchAux [] (address_parts.getD 1 "").data with
      | some (city, st, zp) =>
        { d with city := pyStrip city, state := pyStrip st, zip_code := pyStrip zp }
      | none => d
    else d
  | none => d

/-- UHC `_extract_provider_data` (uhc.py lines 296-365): build the record
field by field in source order; any exception is caught at the card level
and the method returns the empty dict, which is falsy — modelled as
`none`. A completed extraction always returns the (truthy) 12-key dict. -/
def UHC.extract_provider_data (current_url : String) (card : Card) : Option ProviderData :=
  if card.raises then none
  else
    let d : ProviderData := { network := "UHC", url := current_url }
    let d := setProviderName card d
    let d := UHC.setAddress card d
    let d := setPhone card d
    let d := setPracticeName card d
    let d := setSpecialties card d
    let d := setAccepting card d
    some d

/-- Anthem `_extract_provider_data` (anthem.py lines 339-422): same shape,
Anthem field order, `None` (falsy) on a card-level exception. -/
def Anthem.extract_provider_data (current_url : String) (card : Card) : Option ProviderData :=
  if card.raises then none
  else
    let d : ProviderData := { network := "Anthem", url := current_url }
    let d := setProviderName card d
    let d := setSpecialties card d
    let d := Anthem.setAddress card d
    let d := setPhone card d
    let d := setPracticeName card d
    let d := setAccepting card d
    let d := setProviderId card d
    some d

/-- Psychology Today `_extract_provider_data` (psychology_today.py lines
196-279). The module never imports `re`, so reaching either `re.search`
call raises `NameError`: in the address branch as soon as the stripped
address text splits into at least two lines (line 243), and in the
provider-id branch whenever the `.provider-id` element exists (line 271).
The card-level handler catches it and returns `None`, dropping the card;
fields assigned before the failure are discarded with the dict. -/
def PT.extract_provider_data (current_url : String) (card : Card) : Option ProviderData :=
  if card.raises then none
  else
    let d : ProviderData := { network := "Psychology Today", url := current_url }
    let d := setProviderName card d
    let d := setSpecialties card d
    match card.addressText with
    | some t =>
      if 2 ≤ (pySplitChar '\n' (pyStrip t)).length then none
      else
        let d := setPhone card d
        let d := setPracticeName card d
        let d := setAccepting card d
        match card.providerIdText with
        | some _ => none
        | none => some d
    | none =>
      let d := setPhone card d
      let d := setPracticeName card d
      let d := setAccepting card d
      match card.providerIdText with
      | some _ => none
      | none => some d

/-- Browser facts consumed by UHC `_extract_providers` (uhc.py lines
231-294): the no-results marker, whether a `.pagination-container` exists,
the texts of its `li` items, the cards rendered while page `p` is current,
and whether the next-page transition out of page `p` completes. -/
structure UHCExtractEnv where
  current_url : String
  noResults : Bool
  paginationPresent : Bool
  pageItems : List String
  pages : Int → List Card
  navOk : Int → Bool

/-- UHC page-count determination (uhc.py lines 246-258): default 1; with a
pagination container and more than two `li` items, `int()` of the
second-to-last item text, falling back to 1 on `ValueError`. -/
def UHC.total_pages (env : UHCExtractEnv) : Int :=
  if env.paginationPresent && decide (2 < env.pageItems.length) then
    match pyInt (env.pageItems.getD (env.pageItems.length - 2) "") with
    | some n => n
    | none => 1
  else 1

/-- The pages UHC's pagination loop processes; `current_page` starts at 1. -/
def UHC.page_walk (env : UHCExtractEnv) : List Int :=
  visitPages env.navOk (UHC.total_pages env) 1

/-- UHC `_extract_providers` (uhc.py lines 231-294): empty on the
no-results marker; otherwise every processed page contributes the records
of its cards whose extraction returned a truthy dict, in order. -/
def UHC.extract_providers (env : UHCExtractEnv) : List ProviderData :=
  if env.noResults then []
  else
    (UHC.page_walk env).flatMap
      (fun p => (env.pages p).filterMap (UHC.extract_provider_data env.current_url))

/-- Browser facts consumed by Anthem `_extract_providers` (anthem.py lines
247-337): additionally `cardsPresent` (the initial wait for a
`.provider-card`, whose timeout is routed to the enclosing catch-all) and
the optional `.pagination-info` element text (`none` = element missing, so
`find_element` raises `NoSuchElementException`). -/
structure AnthemExtractEnv where
  current_url : String
  noResults : Bool
  cardsPresent : Bool
  paginationPresent : Bool
  paginationInfo : Option String
  pages : Int → List Card
  navOk : Int → Bool

/-- Anthem page-count determination (anthem.py lines 269-281): without a
`.pagination` block, `(current, total) = (1, 1)`; with one, the
`.pagination-info` text is required — a missing element raises
(`none` here) — and a `Page N of M` match sets both counters, while a
failed match leaves `(1, 1)`. -/
def Anthem.page_count (env : AnthemExtractEnv) : Option (Int × Int) :=
  if env.paginationPresent then
    match env.paginationInfo with
    | none => none
    | some s =>
      match pageOfSearch s.data with
      | some (c, t) => some ((c : Int), (t : Int))
      | none => some (1, 1)
  else some (1, 1)

/-- The pages Anthem's pagination loop processes; `current_page` starts at
the value reported by the pagination summary. An exception while reading
the summary reaches the catch-all, so no page is processed. -/
def Anthem.page_walk (env : AnthemExtractEnv) : List Int :=
  match Anthem.page_count env with
  | none => []
  | some (c, t) => visitPages env.navOk t c

/-- Anthem `_extract_providers` (anthem.py lines 247-337). The per-card
expand click (`.toggle-details`) has no effect on the extracted data and is
not modelled. -/
def Anthem.extract_providers (env : AnthemExtractEnv) : List ProviderData :=
  if env.noResults then []
  else if !env.cardsPresent then []
  else
    (Anthem.page_walk env).flatMap
      (fun p => (env.pages p).filterMap (Anthem.extract_provider_data env.current_url))

/-- Browser facts consumed by Psychology Today `_extract_providers`
(psychology_today.py lines 161-194): no pagination; a single card list. -/
structure PTExtractEnv where
  current_url : String
  noResults : Bool
  cardsPresent : Bool
  cards : List Card

/-- Psychology Today `_extract_providers` (psychology_today.py lines
161-194). -/
def PT.extract_providers (env : PTExtractEnv) : List ProviderData :=
  if env.noResults then []
  else if !env.cardsPresent then []
  else env.cards.filterMap (PT.extract_provider_data env.current_url)

/-- A Python `Dict[str, str]` as an insertion-ordered association list
(keys unique in practice; assignment replaces the first occurrence). -/
def PyDict := List (String × String)
deriving DecidableEq, Repr

/-- `d.get(key)`: value of the first entry with this key. -/
def dictGet : PyDict → String → Option String
  | [], _ => none
  | (k, v) :: rest, key => if k = key then some v else dictGet rest key

/-- `d[key] = value`: replace the value at an existing key in place,
else append the new entry (Python dict insertion order). -/
def dictSet : PyDict → String → String → PyDict
  | [], key, value => [(key, value)]
  | (k, v) :: rest, key, value =>
    if k = key then (key, value) :: rest else (k, v) :: dictSet rest key value

/-- `d.update(other)`: assign every entry of `other` in iteration order. -/
def dictUpdate (d : PyDict) (other : PyDict) : PyDict :=
  other.foldl (fun acc e => dictSet acc e.1 e.2) d

/-- Truthiness of `d.get(key)`: present and non-empty. -/
def truthyOpt : Option String → Bool
  | some s => !(s = "")
  | none => false

/-- `StateLicenseBoard.fetch_license_data` (state_license_boards.py lines
7-24): the placeholder implementation returns this constant dict for every
`(provider_name, state)`. -/
def StateLicenseBoard.fetch_license_data (provider_name state : String) : PyDict :=
  [("license_number", "123456"),
   ("license_status", "Active"),
   ("license_expiry", "2025-12-31")]

/-- `StateLicenseBoard.enrich_provider_data` (state_license_boards.py lines
27-45): for each record whose `state` and `provider_name` are both truthy,
`provider.update(license_data)`; the list object and record order are
unchanged (the in-place mutation is modelled as a map). -/
def StateLicenseBoard.enrich_provider_data (providers : List PyDict) : List PyDict :=
  providers.map (fun provider =>
    if truthyOpt (dictGet provider "state") && truthyOpt (dictGet provider "provider_name") then
      dictUpdate provider
        (StateLicenseBoard.fetch_license_data
          ((dictGet provider "provider_name").getD "") ((dictGet provider "state").getD ""))
    else provider)

/-- A record as the Python dict it is, in the insertion order of the dict
literal in `_extract_provider_data`. -/
def ProviderData.toDict (d : ProviderData) : PyDict :=
  [("provider_id", d.provider_id),
   ("provider_name", d.provider_name),
   ("practice_name", d.practice_name),
   ("specialties", d.specialties),
   ("address", d.address),
   ("city", d.city),
   ("state", d.state),
   ("zip_code", d.zip_code),
   ("phone", d.phone),
   ("accepting_new_patients", d.accepting_new_patients),
   ("network", d.network),
   ("url", d.url)]

/-- `BaseScraper.save_data` as observed through `scrape`'s return value
(base_scraper.py lines 72-101): an empty batch returns before enrichment;
otherwise `enrich_provider_data` mutates the very dicts the scraper is
about to return (the CSV write itself is not a browser effect and is not
modelled). -/
def save_data_effect (providers : List PyDict) : List PyDict :=
  if providers.isEmpty then providers
  else StateLicenseBoard.enrich_provider_data providers

/-- One browser interaction, for stating that a code path touches the
browser. Selector strings are abbreviated; only the shape of the trace is
relied on. -/
inductive BrowserAction where
  | navigate (url : String)
  | waitFor (selector : String)
  | click (selector : String)
  | typeText (selector text : String)
  | pressKey (key : String)
deriving DecidableEq, Repr

/-- UHC specialty vocabulary (uhc.py lines 155-161):
`specialty_mapping.get(specialty, "Therapist")`. -/
def UHC.specialty_term (specialty : String) : String :=
  if specialty = "mental_health" then "Therapist"
  else if specialty = "psychiatry" then "Psychiatrist"
  else if specialty = "psychology" then "Psychologist"
  else if specialty = "therapy" then "Therapist"
  else "Therapist"

/-- Anthem and Psychology Today specialty vocabulary (anthem.py lines
150-158, psychology_today.py lines 112-120):
`specialty_mapping.get(specialty, "Mental Health")`. -/
def Anthem.specialty_term (specialty : String) : String :=
  if specialty = "mental_health" then "Mental Health"
  else if specialty = "psychiatry" then "Psychiatrist"
  else if specialty = "psychology" then "Psychologist"
  else if specialty = "therapy" then "Therapist"
  else if specialty = "counseling" then "Counselor"
  else "Mental Health"

/-- Outcome of one mandatory navigation step: the interactions delivered,
and whether the step completed (a timeout or interaction error raises and
aborts the surrounding `scrape`). Environments supply one flag per step. -/
def stepTrace (ok : Bool) (onOk onFail : List BrowserAction) : List BrowserAction :=
  if ok then onOk else onFail

def UHC.base_url : String := "https://www.uhc.com/find-a-doctor"

/-- UHC `_search_as_guest` (uhc.py lines 89-105). -/
def UHC.search_as_guest_trace (ok : Bool) : List BrowserAction :=
  stepTrace ok
    [BrowserAction.waitFor ("guest-button"), BrowserAction.click ("guest-button"),
     BrowserAction.waitFor ("#search-location")]
    [BrowserAction.waitFor ("guest-button")]

/-- UHC `_select_behavioral_health_directory` (uhc.py lines 107-125). -/
def UHC.behavioral_trace (ok : Bool) : List BrowserAction :=
  stepTrace ok
    [BrowserAction.waitFor ("behavioral-health-link"), BrowserAction.click ("behavioral-health-link"),
     BrowserAction.waitFor ("#search-location")]
    [BrowserAction.waitFor ("behavioral-health-link")]

/-- UHC `_select_employer_individual_plans` (uhc.py lines 127-145). -/
def UHC.plans_trace (ok : Bool) : List BrowserAction :=
  stepTrace ok
    [BrowserAction.waitFor ("plans-link"), BrowserAction.click ("plans-link"),
     BrowserAction.waitFor ("#search-location")]
    [BrowserAction.waitFor ("plans-link")]

/-- UHC `_select_specialty` (uhc.py lines 147-176). -/
def UHC.select_specialty_trace (ok : Bool) (specialty : String) : List BrowserAction :=
  stepTrace ok
    [BrowserAction.waitFor ("#search-term"),
     BrowserAction.typeText ("#search-term") (UHC.specialty_term specialty),
     BrowserAction.pressKey ("DOWN"), BrowserAction.pressKey ("ENTER")]
    [BrowserAction.waitFor ("#search-term")]

/-- UHC `_enter_location` (uhc.py lines 178-229): the radius sub-step is
best-effort — on its timeout the code logs a warning and proceeds to the
search button with the default radius. -/
def UHC.enter_location_trace (ok radiusOk : Bool) (zip_code : String) (radius : Int) :
    List BrowserAction :=
  if ok then
    [BrowserAction.waitFor ("#search-location"),
     BrowserAction.typeText ("#search-location") zip_code,
     BrowserAction.pressKey ("ENTER")]
    ++ (if radiusOk then
          [BrowserAction.waitFor ("#search-radius"), BrowserAction.click ("#search-radius"),
           BrowserAction.click ("radius-option " ++ toString (UHC.closest_radius radius))]
        else [BrowserAction.waitFor ("#search-radius")])
    ++ [BrowserAction.waitFor ("search-submit"), BrowserAction.click ("search-submit"),
        BrowserAction.waitFor (".provider-info or .no-results-message")]
  else [BrowserAction.waitFor ("#search-location")]

/-- Per-run success flags for UHC `scrape`'s navigation steps plus the
extraction environment. -/
structure UHCScrapeEnv where
  guestOk : Bool
  behavioralOk : Bool
  plansOk : Bool
  specialtyOk : Bool
  locationOk : Bool
  radiusOk : Bool
  extract : UHCExtractEnv

/-- UHC `scrape` (uhc.py lines 36-87): the missing-zip guard returns `[]`
before the `try` block, so with a falsy `zip_code` no browser interaction
happens at all; otherwise navigation starts with `driver.get(base_url)`,
any failed mandatory step aborts with `[]` via the catch-all, and a
successful walk returns the extracted records after `save_data` has
enriched them in place. -/
def UHC.scrape (env : UHCScrapeEnv) (zip_code : String) (radius : Int) (specialty : String) :
    List PyDict × List BrowserAction :=
  if zip_code = "" then ([], [])
  else
    let t1 := BrowserAction.navigate (UHC.base_url) :: UHC.search_as_guest_trace env.guestOk
    if !env.guestOk then ([], t1) else
    let t2 := t1 ++ UHC.behavioral_trace env.behavioralOk
    if !env.behavioralOk then ([], t2) else
    let t3 := t2 ++ UHC.plans_trace env.plansOk
    if !env.plansOk then ([], t3) else
    let t4 := t3 ++ UHC.select_specialty_trace env.specialtyOk specialty
    if !env.specialtyOk then ([], t4) else
    let t5 := t4 ++ UHC.enter_location_trace env.locationOk env.radiusOk zip_code radius
    if !env.locationOk then ([], t5) else
    let providers := (UHC.extract_providers env.extract).map ProviderData.toDict
    (save_data_effect providers, t5)

def Anthem.base_url : String := "https://www.anthem.com/find-care/"

/-- Anthem `_search_as_guest` (anthem.py lines 83-105). -/
def Anthem.search_as_guest_trace (ok : Bool) : List BrowserAction :=
  stepTrace ok
    [BrowserAction.waitFor (".homepage"), BrowserAction.waitFor ("guest-button"),
     BrowserAction.click ("guest-button"), BrowserAction.waitFor ("#search-location")]
    [BrowserAction.waitFor (".homepage")]

/-- Anthem `_enter_location` (anthem.py lines 107-139). -/
def Anthem.enter_location_trace (ok : Bool) (zip_code : String) : List BrowserAction :=
  stepTrace ok
    [BrowserAction.waitFor ("#search-location"),
     BrowserAction.typeText ("#search-location") zip_code,
     BrowserAction.click ("continue-button"), BrowserAction.waitFor ("#search-term")]
    [BrowserAction.waitFor ("#search-location")]

/-- Anthem `_select_specialty` (anthem.py lines 141-197). -/
def Anthem.select_specialty_trace (ok : Bool) (specialty : String) : List BrowserAction :=
  stepTrace ok
    [BrowserAction.waitFor ("#search-term"),
     BrowserAction.typeText ("#search-term") (Anthem.specialty_term specialty),
     BrowserAction.waitFor (".search-suggestions .suggestion"),
     BrowserAction.click (".search-suggestions .suggestion"),
     BrowserAction.click ("search-button"),
     BrowserAction.waitFor (".provider-card or .no-results")]
    [BrowserAction.waitFor ("#search-term")]

/-- Anthem `_set_radius` (anthem.py lines 199-245): entirely best-effort —
every failure only logs, so the step never aborts `scrape`. -/
def Anthem.set_radius_trace (filterPresent ok : Bool) (radius : Int) : List BrowserAction :=
  if !filterPresent then []
  else stepTrace ok
    [BrowserAction.click ("distance-filter"),
     BrowserAction.click ("radius-option " ++ toString (Anthem.closest_radius radius)),
     BrowserAction.click ("apply-button")]
    [BrowserAction.click ("distance-filter")]

/-- Per-run success flags for Anthem `scrape`. -/
structure AnthemScrapeEnv where
  guestOk : Bool
  locationOk : Bool
  specialtyOk : Bool
  radiusFilterPresent : Bool
  radiusOk : Bool
  extract : AnthemExtractEnv

/-- Anthem `scrape` (anthem.py lines 37-81): same structure as UHC's, with
the Anthem step order (guest gate, location, specialty, best-effort
radius). -/
def Anthem.scrape (env : AnthemScrapeEnv) (zip_code : String) (radius : Int)
    (specialty : String) : List PyDict × List BrowserAction :=
  if zip_code = "" then ([], [])
  else
    let t1 := BrowserAction.navigate (Anthem.base_url) :: Anthem.search_as_guest_trace env.guestOk
    if !env.guestOk then ([], t1) else
    let t2 := t1 ++ Anthem.enter_location_trace env.locationOk zip_code
    if !env.locationOk then ([], t2) else
    let t3 := t2 ++ Anthem.select_specialty_trace env.specialtyOk specialty
    if !env.specialtyOk then ([], t3) else
    let t4 := t3 ++ Anthem.set_radius_trace env.radiusFilterPresent env.radiusOk radius
    let providers := (Anthem.extract_providers env.extract).map ProviderData.toDict
    (save_data_effect providers, t4)

def PT.base_url : String := "https://www.psychologytoday.com/us/therapists"

/-- Psychology Today `_enter_location` (psychology_today.py lines 69-101). -/
def PT.enter_location_trace (ok : Bool) (zip_code : String) : List BrowserAction :=
  stepTrace ok
    [BrowserAction.waitFor ("#search-location"),
     BrowserAction.typeText ("#search-location") zip_code,
     BrowserAction.click ("search-button"), BrowserAction.waitFor (".results")]
    [BrowserAction.waitFor ("#search-location")]

/-- Psychology Today `_select_specialty` (psychology_today.py lines
103-159). -/
def PT.select_specialty_trace (ok : Bool) (specialty : String) : List BrowserAction :=
  stepTrace ok
    [BrowserAction.waitFor ("#search-term"),
     BrowserAction.typeText ("#search-term") (Anthem.specialty_term specialty),
     BrowserAction.waitFor (".search-suggestions .suggestion"),
     BrowserAction.click (".search-suggestions .suggestion"),
     BrowserAction.click ("search-button"), BrowserAction.waitFor (".results")]
    [BrowserAction.waitFor ("#search-term")]

/-- Per-run success flags for Psychology Today `scrape`. -/
structure PTScrapeEnv where
  locationOk : Bool
  specialtyOk : Bool
  extract : PTExtractEnv

/-- Psychology Today `scrape` (psychology_today.py lines 29-67). -/
def PT.scrape (env : PTScrapeEnv) (zip_code : String) (radius : Int)
    (specialty : String) : List PyDict × List BrowserAction :=
  if zip_code = "" then ([], [])
  else
    let t1 := BrowserAction.navigate (PT.base_url) :: PT.enter_location_trace env.locationOk zip_code
    if !env.locationOk then ([], t1) else
    let t2 := t1 ++ PT.select_specialty_trace env.specialtyOk specialty
    if !env.specialtyOk then ([], t2) else
    let providers := (PT.extract_providers env.extract).map ProviderData.toDict
    (save_data_effect providers, t2)

/-- The address-derived fields of a record, as one tuple. -/
def addrView (d : ProviderData) : String × String × String × String :=
  (d.address, d.city, d.state, d.zip_code)

theorem addrView_setProviderName (card : Card) (d : ProviderData) :
    addrView (setProviderName card d) = addrView d := by
  cases h : card.nameText <;> simp [setProviderName, h, addrView]

theorem addrView_setSpecialties (card : Card) (d : ProviderData) :
    addrView (setSpecialties card d) = addrView d := by
  cases h : card.specialtyText <;> simp [setSpecialties, h, addrView]

theorem addrView_setPhone (card : Card) (d : ProviderData) :
    addrView (setPhone card d) = addrView d := by
  cases h : card.phoneText <;> simp [setPhone, h, addrView]

theorem addrView_setPracticeName (card : Card) (d : ProviderData) :
    addrView (setPracticeName card d) = addrView d := by
  cases h : card.practiceText <;> simp [setPracticeName, h, addrView]

theorem addrView_setAccepting (card : Card) (d : ProviderData) :
    addrView (setAccepting card d) = addrView d := by
  cases h : card.acceptingText <;> simp [setAccepting, h, addrView]

theorem addrView_setProviderId (card : Card) (d : ProviderData) :
    addrView (setProviderId card d) = addrView d := by
  cases h : card.providerIdText with
  | none => simp [setProviderId, h]
  | some t => cases hid : idSearch (stripList t.data) <;> simp [setProviderId, h, hid, addrView]

/-- The address block of claim C8. -/
def c8AddressText : String := "123 Main St\nSpringfield, IL 62704"

theorem uhc_setAddress_c8 (card : Card) (d : ProviderData)
    (h : card.addressText = some c8AddressText) :
    UHC.setAddress card d =
      { d with address := "123 Main St", city := "Springfield",
               state := "IL", zip_code := "62704" } := by
  unfold UHC.setAddress
  rw [h]
  rfl

theorem anthem_setAddress_c8 (card : Card) (d : ProviderData)
    (h : card.addressText = some c8AddressText) :
    Anthem.setAddress card d =
      { d with address := "123 Main St", city := "Springfield",
               state := "IL", zip_code := "62704" } := by
  unfold Anthem.setAddress
  rw [h]
  rfl

/-- C8: for every card whose address element text is
`123 Main St\nSpringfield, IL 62704`, the per-card extraction of both UHC
and Anthem produces a record with address `123 Main St`, city
`Springfield`, state `IL` and zip_code `62704`, whatever the other card
elements hold. -/
theorem claim8_address_parse (url : String) (card : Card)
    (hr : card.raises = false) (ha : card.addressText = some c8AddressText) :
    (UHC.extract_provider_data url card).map addrView =
      some ("123 Main St", "Springfield", "IL", "62704") ∧
    (Anthem.extract_provider_data url card).map addrView =
      some ("123 Main St", "Springfield", "IL", "62704") := by
  constructor
  · rw [UHC.extract_provider_data, hr]
    simp only [Bool.false_eq_true, if_false, Option.map_some']
    rw [addrView_setAccepting, addrView_setSpecialties, addrView_setPracticeName,
      addrView_setPhone, uhc_setAddress_c8 card _ ha]
    rfl
  · rw [Anthem.extract_provider_data, hr]
    simp only [Bool.false_eq_true, if_false, Option.map_some']
    rw [addrView_setProviderId, addrView_setAccepting, addrView_setPracticeName,
      addrView_setPhone, anthem_setAddress_c8 card _ ha]
    rfl

/-- Witness for C8 at a concrete card. -/
def c8Card : Card :=
  { nameText := some ("Dr Jane Doe"), addressText := some (c8AddressText),
    phoneText := some ("555-0100") }

theorem claim8_witness :
    c8Card.raises = false ∧ c8Card.addressText = some c8AddressText ∧
    (UHC.extract_provider_data ("u") c8Card).map addrView =
      some ("123 Main St", "Springfield", "IL", "62704") ∧
    (Anthem.extract_provider_data ("u") c8Card).map addrView =
      some ("123 Main St", "Springfield", "IL", "62704") := by
  refine ⟨rfl, rfl, ?_⟩
  exact claim8_address_parse ("u") c8Card rfl rfl

/-- C5: for every site scraper, `scrape` with an empty (falsy) zip code
returns the empty list and performs no browser interaction at all: the
guard runs before the `try` block whose first statement is the
`driver.get` navigation, so the action trace is empty. -/
theorem claim5_empty_zip (e1 : UHCScrapeEnv) (e2 : AnthemScrapeEnv) (e3 : PTScrapeEnv)
    (radius : Int) (specialty : String) :
    UHC.scrape e1 "" radius specialty = ([], []) ∧
    Anthem.scrape e2 "" radius specialty = ([], []) ∧
    PT.scrape e3 "" radius specialty = ([], []) := by
  refine ⟨?_, ?_, ?_⟩ <;> simp [UHC.scrape, Anthem.scrape, PT.scrape]

set_option maxHeartbeats 1600000 in
/-- C3: both UHC `_enter_location` and Anthem `_set_radius` select, from
`[5, 10, 15, 25, 50, 100]`, the element of minimal absolute difference
from the requested radius, and Python `min` keeps the first minimum of the
ascending list, so equidistant cases resolve to the lower element. -/
theorem claim3_radius_snap (radius x : Int) (hx : x ∈ availableRadiusList) :
    UHC.closest_radius radius ∈ availableRadiusList ∧
    (UHC.closest_radius radius - radius).natAbs ≤ (x - radius).natAbs ∧
    ((x - radius).natAbs = (UHC.closest_radius radius - radius).natAbs →
      UHC.closest_radius radius ≤ x) ∧
    Anthem.closest_radius radius = UHC.closest_radius radius := by
  simp only [UHC.closest_radius, Anthem.closest_radius, pyMinKey, pyMinBy,
    availableRadiusList, List.mem_cons, List.not_mem_nil, or_false] at *
  refine ⟨by split_ifs <;> omega, ?_, ?_, trivial⟩
  · rcases hx with h | h | h | h | h | h <;> subst h <;> split_ifs <;> omega
  · rcases hx with h | h | h | h | h | h <;> subst h <;> intro hEq <;>
      split_ifs at hEq ⊢ <;> omega

/-- Witness for C3 at the tie case 20 (equidistant from 15 and 25). -/
theorem claim3_witness :
    (25 : Int) ∈ availableRadiusList ∧
    (UHC.closest_radius 20 ∈ availableRadiusList ∧
     (UHC.closest_radius 20 - 20).natAbs ≤ ((25 : Int) - 20).natAbs ∧
     (((25 : Int) - 20).natAbs = (UHC.closest_radius 20 - 20).natAbs →
       UHC.closest_radius 20 ≤ 25) ∧
     Anthem.closest_radius 20 = UHC.closest_radius 20) ∧
    UHC.closest_radius 20 = 15 :=
  ⟨by decide, claim3_radius_snap 20 25 (by decide), by decide⟩

theorem extract_isSome_iff_no_raise (url : String) (card : Card) :
    (UHC.extract_provider_data url card).isSome = !card.raises ∧
    (Anthem.extract_provider_data url card).isSome = !card.raises := by
  cases h : card.raises <;>
    simp [UHC.extract_provider_data, Anthem.extract_provider_data, h]

theorem length_filterMap_of_all_isSome {α β : Type} (f : α → Option β) :
    ∀ l : List α, (∀ x ∈ l, (f x).isSome = true) → (l.filterMap f).length = l.length := by
  intro l
  induction l with
  | nil => intro _; rfl
  | cons a l ih =>
    intro h
    cases hfa : f a with
    | none =>
      have := h a (List.mem_cons_self a l)
      rw [hfa] at this
      simp at this
    | some b =>
      rw [List.filterMap_cons_some hfa]
      simp only [List.length_cons]
      rw [ih (fun x hx => h x (List.mem_cons_of_mem a hx))]

/-- C2 (amended): a card contributes a record exactly when its per-card
extraction completes without an exception; the truthiness test
`if provider_data:` only filters out the falsy failure value (`{}` for
UHC, `None` for Anthem), so a completed card is appended even when its
provider name is empty. -/
theorem claim2_emitted_iff_no_raise :
    (∀ (url : String) (card : Card),
       (UHC.extract_provider_data url card).isSome = !card.raises ∧
       (Anthem.extract_provider_data url card).isSome = !card.raises) ∧
    (∀ (url : String) (cards : List Card),
       (cards.filterMap (UHC.extract_provider_data url)).length =
         (cards.filter (fun c => !c.raises)).length ∧
       (cards.filterMap (Anthem.extract_provider_data url)).length =
         (cards.filter (fun c => !c.raises)).length) := by
  refine ⟨extract_isSome_iff_no_raise, ?_⟩
  intro url cards
  constructor <;>
  · induction cards with
    | nil => rfl
    | cons c cs ih =>
      cases hr : c.raises <;>
        simp [UHC.extract_provider_data, Anthem.extract_provider_data,
          List.filterMap_cons, List.filter_cons, hr, ih]

/-- A card none of whose sub-elements exist: `find_elements` returns `[]`
for each selector, every field keeps its default, and extraction completes. -/
def c2Card : Card := {}

/-- One result page holding only `c2Card`, no pagination. -/
def c2Env : UHCExtractEnv :=
  { current_url := "u", noResults := false, paginationPresent := false,
    pageItems := [], pages := fun _ => [c2Card], navOk := fun _ => true }

/-- C2 is false as stated: UHC's `_extract_providers` appends the record
of a card with no name element, and that record's `provider_name` is
empty — the 12-key dict is truthy regardless of the name. -/
theorem claim2_counterexample :
    (UHC.extract_providers c2Env).map (fun d => d.provider_name) = [""] ∧
    ¬ (∀ d ∈ UHC.extract_providers c2Env, ¬ d.provider_name = "") := by
  constructor
  · decide
  · decide

/-- C7: an exception inside `_extract_provider_data` for one card is
caught at the card level; that card contributes no record, while every
other card of the page contributes exactly as it would alone — in
particular one malformed card among ten leaves the other nine records. -/
theorem claim7_card_failure_isolated (url : String) (pre post : List Card) (c : Card)
    (hc : c.raises = true) :
    (pre ++ c :: post).filterMap (UHC.extract_provider_data url) =
      pre.filterMap (UHC.extract_provider_data url) ++
        post.filterMap (UHC.extract_provider_data url) ∧
    (pre ++ c :: post).filterMap (Anthem.extract_provider_data url) =
      pre.filterMap (Anthem.extract_provider_data url) ++
        post.filterMap (Anthem.extract_provider_data url) ∧
    ((∀ x ∈ pre, x.raises = false) → (∀ x ∈ post, x.raises = false) →
      ((pre ++ c :: post).filterMap (UHC.extract_provider_data url)).length =
        pre.length + post.length) := by
  have hu : UHC.extract_provider_data url c = none := by
    rw [UHC.extract_provider_data, hc]
    rfl
  have ha : Anthem.extract_provider_data url c = none := by
    rw [Anthem.extract_provider_data, hc]
    rfl
  have e1 : (pre ++ c :: post).filterMap (UHC.extract_provider_data url) =
      pre.filterMap (UHC.extract_provider_data url) ++
        post.filterMap (UHC.extract_provider_data url) := by
    rw [List.filterMap_append, List.filterMap_cons_none hu]
  refine ⟨e1, by rw [List.filterMap_append, List.filterMap_cons_none ha], ?_⟩
  intro hpre hpost
  rw [e1, List.length_append]
  have hs : ∀ (x : Card), x.raises = false → (UHC.extract_provider_data url x).isSome = true := by
    intro x hx
    rw [UHC.extract_provider_data, hx]
    rfl
  rw [length_filterMap_of_all_isSome _ pre (fun x hx => hs x (hpre x hx)),
    length_filterMap_of_all_isSome _ post (fun x hx => hs x (hpost x hx))]

def c7pre : List Card :=
  [{ nameText := some ("A") }, { nameText := some ("B") },
   { nameText := some ("C") }, { nameText := some ("D") }]

def c7bad : Card := { nameText := some ("E"), raises := true }

def c7post : List Card :=
  [{ nameText := some ("F") }, { nameText := some ("G") }, { nameText := some ("H") },
   { nameText := some ("I") }, { nameText := some ("J") }]

/-- Witness for C7: ten cards, one raising, yield exactly nine records. -/
theorem claim7_witness :
    c7bad.raises = true ∧ (c7pre ++ c7bad :: c7post).length = 10 ∧
    ((c7pre ++ c7bad :: c7post).filterMap (UHC.extract_provider_data ("u"))).length = 9 := by
  refine ⟨rfl, by decide, ?_⟩
  have h := (claim7_card_failure_isolated ("u") c7pre c7post c7bad rfl).2.2
    (by decide) (by decide)
  rw [h]
  decide

/-- C10: in the Psychology Today scraper the `re` module is never
imported, so once a card's stripped address text splits into at least two
lines the `re.search` call raises `NameError`; the card-level handler
returns `None` and the card contributes no record (the name, specialty and
address fields read before the failure are discarded with the dict), while
the other cards of the page are unaffected. -/
theorem claim10_pt_nameerror (url : String) (card : Card) (t : String)
    (hr : card.raises = false) (ha : card.addressText = some t)
    (hnl : 2 ≤ (pySplitChar '\n' (pyStrip t)).length) :
    PT.extract_provider_data url card = none ∧
    ∀ (pre post : List Card),
      (pre ++ card :: post).filterMap (PT.extract_provider_data url) =
        pre.filterMap (PT.extract_provider_data url) ++
          post.filterMap (PT.extract_provider_data url) := by
  have hnone : PT.extract_provider_data url card = none := by
    rw [PT.extract_provider_data, hr]
    simp only [Bool.false_eq_true, if_false]
    rw [ha]
    simp only [hnl, if_pos]
  refine ⟨hnone, ?_⟩
  intro pre post
  rw [List.filterMap_append, List.filterMap_cons_none hnone]

def c10Card : Card :=
  { nameText := some ("Dr Ann Lee"), specialtyText := some ("Therapist"),
    addressText := some ("1 A St\nTown, IL 62704") }

/-- Witness for C10 at a concrete two-line address card. -/
theorem claim10_witness :
    c10Card.raises = false ∧
    c10Card.addressText = some ("1 A St\nTown, IL 62704") ∧
    2 ≤ (pySplitChar '\n' (pyStrip ("1 A St\nTown, IL 62704"))).length ∧
    PT.extract_provider_data ("u") c10Card = none := by
  refine ⟨rfl, rfl, by decide, ?_⟩
  exact (claim10_pt_nameerror ("u") c10Card ("1 A St\nTown, IL 62704") rfl rfl (by decide)).1

theorem dictGet_dictSet_self (d : PyDict) (k v : String) :
    dictGet (dictSet d k v) k = some v := by
  induction d with
  | nil => simp [dictSet, dictGet]
  | cons e rest ih =>
    by_cases h : e.1 = k
    · simp [dictSet, h, dictGet]
    · simp [dictSet, h, dictGet, ih]

theorem dictGet_dictSet_other (d : PyDict) (k v key : String) (hk : k ≠ key) :
    dictGet (dictSet d k v) key = dictGet d key := by
  induction d with
  | nil => simp [dictSet, dictGet, hk]
  | cons e rest ih =>
    by_cases h : e.1 = k
    · simp [dictSet, h, dictGet, hk]
    · simp [dictSet, h, dictGet, ih]

theorem getD_map_of_lt {α β : Type} (f : α → β) (dA : α) (dB : β) :
    ∀ (l : List α) (i : Nat), i < l.length → (l.map f).getD i dB = f (l.getD i dA)
  | [], i, h => absurd h (by simp)
  | a :: l, 0, _ => rfl
  | a :: l, i + 1, h =>
    getD_map_of_lt f dA dB l i (by simpa using h)

/-- The enrichment condition of one record: both `state` and
`provider_name` present and non-empty. -/
def enrichCond (p : PyDict) : Bool :=
  truthyOpt (dictGet p "state") && truthyOpt (dictGet p "provider_name")

/-- C9: `enrich_provider_data` preserves the length and order of the
record list; a record missing a truthy `state` or `provider_name` passes
through unchanged; an enriched record gains exactly the three license
fields of the lookup result, every other key keeping its value. -/
theorem claim9_enrichment (providers : List PyDict) (i : Nat) (hi : i < providers.length) :
    (StateLicenseBoard.enrich_provider_data providers).length = providers.length ∧
    (enrichCond (providers.getD i []) = false →
      (StateLicenseBoard.enrich_provider_data providers).getD i [] = providers.getD i []) ∧
    (enrichCond (providers.getD i []) = true →
      dictGet ((StateLicenseBoard.enrich_provider_data providers).getD i []) "license_number" =
        some "123456" ∧
      dictGet ((StateLicenseBoard.enrich_provider_data providers).getD i []) "license_status" =
        some "Active" ∧
      dictGet ((StateLicenseBoard.enrich_provider_data providers).getD i []) "license_expiry" =
        some "2025-12-31" ∧
      ∀ key : String, key ≠ "license_number" → key ≠ "license_status" →
        key ≠ "license_expiry" →
        dictGet ((StateLicenseBoard.enrich_provider_data providers).getD i []) key =
          dictGet (providers.getD i []) key) := by
  have hmap : (StateLicenseBoard.enrich_provider_data providers).getD i [] =
      (fun provider =>
        if truthyOpt (dictGet provider "state") && truthyOpt (dictGet provider "provider_name")
        then dictUpdate provider
          (StateLicenseBoard.fetch_license_data
            ((dictGet provider "provider_name").getD "") ((dictGet provider "state").getD ""))
        else provider) (providers.getD i []) := by
    rw [StateLicenseBoard.enrich_provider_data]
    exact getD_map_of_lt _ [] [] providers i hi
  refine ⟨by simp [StateLicenseBoard.enrich_provider_data], ?_, ?_⟩
  · intro hcond
    rw [hmap]
    simp only [enrichCond] at hcond
    simp only [hcond, Bool.false_eq_true, if_false]
  · intro hcond
    simp only [enrichCond] at hcond
    rw [hmap]
    simp only [hcond, if_pos]
    have hupd : ∀ (p : PyDict) (n s : String),
        dictUpdate p (StateLicenseBoard.fetch_license_data n s) =
          dictSet (dictSet (dictSet p "license_number" "123456") "license_status" "Active")
            "license_expiry" "2025-12-31" := by
      intro p n s
      rfl
    rw [hupd]
    refine ⟨?_, ?_, ?_, ?_⟩
    · rw [dictGet_dictSet_other _ _ _ _ (by decide),
        dictGet_dictSet_other _ _ _ _ (by decide), dictGet_dictSet_self]
    · rw [dictGet_dictSet_other _ _ _ _ (by decide), dictGet_dictSet_self]
    · rw [dictGet_dictSet_self]
    · intro key h1 h2 h3
      rw [dictGet_dictSet_other _ _ _ _ (fun h => h3 h.symm),
        dictGet_dictSet_other _ _ _ _ (fun h => h2 h.symm),
        dictGet_dictSet_other _ _ _ _ (fun h => h1 h.symm)]

/-- Witness for C9 on a two-record batch, one enrichable and one not. -/
def c9Providers : List PyDict :=
  [[("provider_name", "Dr A"), ("state", "IL"), ("phone", "555")],
   [("provider_name", "Dr B"), ("state", "")]]

theorem claim9_witness :
    0 < c9Providers.length ∧
    (StateLicenseBoard.enrich_provider_data c9Providers).length = c9Providers.length ∧
    (enrichCond (c9Providers.getD 0 []) = true →
      dictGet ((StateLicenseBoard.enrich_provider_data c9Providers).getD 0 []) "license_number" =
          some "123456" ∧
      dictGet ((StateLicenseBoard.enrich_provider_data c9Providers).getD 0 []) "license_status" =
          some "Active" ∧
      dictGet ((StateLicenseBoard.enrich_provider_data c9Providers).getD 0 []) "license_expiry" =
          some "2025-12-31" ∧
      ∀ key : String, key ≠ "license_number" → key ≠ "license_status" →
        key ≠ "license_expiry" →
        dictGet ((StateLicenseBoard.enrich_provider_data c9Providers).getD 0 []) key =
          dictGet (c9Providers.getD 0 []) key) := by
  have h := claim9_enrichment c9Providers 0 (by decide)
  exact ⟨by decide, h.1, h.2.2⟩

theorem visitPagesAux_mem (navOk : Int → Bool) (total : Int) :
    ∀ (fuel : Nat) (current p : Int),
      p ∈ visitPagesAux navOk total fuel current → current ≤ p ∧ p ≤ total := by
  intro fuel
  induction fuel with
  | zero => intro current p hp; simp [visitPagesAux] at hp
  | succ fuel ih =>
    intro current p hp
    rw [visitPagesAux] at hp
    by_cases h1 : current ≤ total
    · rw [if_pos h1] at hp
      by_cases h2 : current < total
      · rw [if_pos h2] at hp
        by_cases h3 : navOk current = true
        · rw [if_pos h3] at hp
          rcases List.mem_cons.mp hp with h | h
          · subst h; exact ⟨le_refl _, h1⟩
          · have := ih (current + 1) p h
            exact ⟨by omega, this.2⟩
        · rw [if_neg h3] at hp
          rcases List.mem_singleton.mp hp with h
          subst h; exact ⟨le_refl _, h1⟩
      · rw [if_neg h2] at hp
        rcases List.mem_singleton.mp hp with h
        subst h; exact ⟨le_refl _, h1⟩
    · rw [if_neg h1] at hp
      simp at hp

theorem visitPagesAux_length (navOk : Int → Bool) (total : Int) :
    ∀ (fuel : Nat) (current : Int),
      (visitPagesAux navOk total fuel current).length ≤ fuel := by
  intro fuel
  induction fuel with
  | zero => intro current; simp [visitPagesAux]
  | succ fuel ih =>
    intro current
    rw [visitPagesAux]
    split_ifs
    · simpa using ih (current + 1)
    · simp
    · simp
    · simp

theorem visitPagesAux_endings (navOk : Int → Bool) (total : Int) :
    ∀ (fuel : Nat) (current : Int),
      (total + 1 - current).toNat ≤ fuel → current ≤ total →
      (visitPagesAux navOk total fuel current).getLast? = some total ∨
      ∃ p ∈ visitPagesAux navOk total fuel current, p < total ∧ navOk p = false := by
  intro fuel
  induction fuel with
  | zero => intro current hf hc; omega
  | succ fuel ih =>
    intro current hf hc
    rw [visitPagesAux, if_pos hc]
    by_cases h2 : current < total
    · rw [if_pos h2]
      by_cases h3 : navOk current = true
      · rw [if_pos h3]
        rcases ih (current + 1) (by omega) (by omega) with h | ⟨p, hp, hlt, hnav⟩
        · left
          cases hrest : visitPagesAux navOk total fuel (current + 1) with
          | nil => rw [hrest] at h; simp at h
          | cons r rs =>
            rw [hrest] at h
            rw [List.getLast?_cons_cons]
            exact h
        · right
          exact ⟨p, List.mem_cons_of_mem _ hp, hlt, hnav⟩
      · rw [if_neg h3]
        right
        exact ⟨current, List.mem_singleton.mpr rfl, h2, by simpa using h3⟩
    · rw [if_neg h2]
      left
      have : current = total := by omega
      subst this
      rfl

/-- C4 (amended): at the start of every iteration `current_page ≤
total_pages` (every visited page lies between the initial page and
`total_pages`); the loop body executes at most
`max(0, total_pages + 1 - initial_page)` times — which is `total_pages`
times for UHC, whose `current_page` always starts at 1 — and the walk,
when it runs at all, ends either with `total_pages` as the last processed
page or at a page whose next-page transition failed. -/
theorem claim4_pagination_amended :
    (∀ (navOk : Int → Bool) (total current p : Int),
       p ∈ visitPages navOk total current → current ≤ p ∧ p ≤ total) ∧
    (∀ (navOk : Int → Bool) (total current : Int),
       (visitPages navOk total current).length ≤ (total + 1 - current).toNat) ∧
    (∀ (navOk : Int → Bool) (total current : Int), current ≤ total →
       (visitPages navOk total current).getLast? = some total ∨
       ∃ p ∈ visitPages navOk total current, p < total ∧ navOk p = false) ∧
    (∀ (env : UHCExtractEnv),
       (UHC.page_walk env).length ≤ (UHC.total_pages env).toNat ∧
       ∀ p ∈ UHC.page_walk env, 1 ≤ p ∧ p ≤ UHC.total_pages env) := by
  refine ⟨?_, ?_, ?_, ?_⟩
  · intro navOk total current p hp
    exact visitPagesAux_mem navOk total _ current p hp
  · intro navOk total current
    exact visitPagesAux_length navOk total _ current
  · intro navOk total current hc
    exact visitPagesAux_endings navOk total _ current (le_refl _) hc
  · intro env
    constructor
    · have h := visitPagesAux_length env.navOk (UHC.total_pages env)
        (UHC.total_pages env + 1 - 1).toNat 1
      have : (UHC.total_pages env + 1 - 1).toNat = (UHC.total_pages env).toNat := by omega
      rw [this] at h
      have h2 : (UHC.page_walk env).length ≤ (UHC.total_pages env + 1 - 1).toNat :=
        visitPagesAux_length env.navOk (UHC.total_pages env) _ 1
      omega
    · intro p hp
      exact visitPagesAux_mem env.navOk (UHC.total_pages env) _ 1 p hp

/-- A well-behaved one-card page for the C4 counterexample. -/
def c4Card : Card := { nameText := some ("Dr N") }

/-- Environment whose pagination summary reads `Page 0 of 1`: Anthem
takes `current_page = 0, total_pages = 1` from the regex groups. -/
def c4Env : AnthemExtractEnv :=
  { current_url := "u", noResults := false, cardsPresent := true,
    paginationPresent := true, paginationInfo := some ("Page 0 of 1"),
    pages := fun _ => [c4Card], navOk := fun _ => true }

/-- C4 is false as stated: with summary text `Page 0 of 1` Anthem's loop
starts at `current_page = 0` and executes its body twice although
`total_pages = 1`, emitting two page-loads of records for a one-page
result. -/
theorem claim4_counterexample :
    Anthem.page_count c4Env = some (0, 1) ∧
    Anthem.page_walk c4Env = [0, 1] ∧
    ¬ ((Anthem.page_walk c4Env).length ≤ 1) ∧
    (Anthem.extract_providers c4Env).length = 2 := by
  refine ⟨by decide, by decide, by decide, by decide⟩

/-- Witness for C4 at `total = 3`, initial page 1, all transitions good. -/
theorem claim4_witness :
    ((2 : Int) ∈ visitPages (fun _ => true) 3 1 ∧ ((1 : Int) ≤ 2 ∧ (2 : Int) ≤ 3)) ∧
    ((1 : Int) ≤ 3 ∧
     ((visitPages (fun _ => true) 3 1).getLast? = some 3 ∨
      ∃ p ∈ visitPages (fun _ => true) 3 1, p < 3 ∧ (fun _ : Int => true) p = false)) :=
  ⟨⟨by decide, claim4_pagination_amended.1 (fun _ => true) 3 1 2 (by decide)⟩,
   ⟨by decide, claim4_pagination_amended.2.2.1 (fun _ => true) 3 1 (by decide)⟩⟩

/-- A well-behaved one-card page for the C6 environments. -/
def c6Card : Card := { nameText := some ("Dr C") }

/-- Anthem environment with a `.pagination` block but no
`.pagination-info` element. -/
def c6EnvMissingInfo : AnthemExtractEnv :=
  { current_url := "u", noResults := false, cardsPresent := true,
    paginationPresent := true, paginationInfo := none,
    pages := fun _ => [c6Card], navOk := fun _ => true }

/-- The same page with no pagination block at all. -/
def c6EnvNoPagination : AnthemExtractEnv :=
  { current_url := "u", noResults := false, cardsPresent := true,
    paginationPresent := false, paginationInfo := none,
    pages := fun _ => [c6Card], navOk := fun _ => true }

/-- C6 is false as stated for Anthem: when the `.pagination` block exists
but the `.pagination-info` summary element is absent, `find_element`
raises `NoSuchElementException` instead of defaulting to one page; the
method-level catch-all swallows it and `_extract_providers` returns the
empty list, processing no page — the same page without the pagination
block yields its one record. -/
theorem claim6_counterexample :
    Anthem.page_count c6EnvMissingInfo = none ∧
    Anthem.extract_providers c6EnvMissingInfo = [] ∧
    (Anthem.extract_providers c6EnvNoPagination).length = 1 := by
  refine ⟨by decide, by decide, by decide⟩

/-- C6 (amended): UHC defaults `total_pages` to 1 whenever the pagination
list is absent or too short or `int()` raises `ValueError`; Anthem
defaults `(current, total)` to `(1, 1)` when the `.pagination` block is
absent or the `Page N of M` pattern does not match; but a present
`.pagination` block whose `.pagination-info` element is missing raises
`NoSuchElementException` out of page-count determination, which the
enclosing handler turns into an empty result list with no page processed. -/
theorem claim6_page_count_amended :
    (∀ (env : UHCExtractEnv),
       env.paginationPresent = false ∨ env.pageItems.length ≤ 2 ∨
         pyInt (env.pageItems.getD (env.pageItems.length - 2) "") = none →
       UHC.total_pages env = 1) ∧
    (∀ (env : AnthemExtractEnv), env.paginationPresent = false →
       Anthem.page_count env = some (1, 1)) ∧
    (∀ (env : AnthemExtractEnv) (s : String),
       env.paginationInfo = some s → pageOfSearch s.data = none →
       Anthem.page_count env = some (1, 1)) ∧
    (∀ (env : AnthemExtractEnv),
       env.paginationPresent = true → env.paginationInfo = none →
       Anthem.page_count env = none ∧ Anthem.extract_providers env = []) := by
  refine ⟨?_, ?_, ?_, ?_⟩
  · intro env h
    rcases h with h | h | h
    · simp [UHC.total_pages, h]
    · have hlt : ¬ (2 < env.pageItems.length) := by omega
      simp [UHC.total_pages, hlt]
    · rw [UHC.total_pages]
      split_ifs with hc
      · rw [h]
      · rfl
  · intro env h
    simp [Anthem.page_count, h]
  · intro env s hs hps
    rw [Anthem.page_count]
    split_ifs with hc
    · rw [hs]
      simp [hps]
    · rfl
  · intro env h1 h2
    have hpc : Anthem.page_count env = none := by
      rw [Anthem.page_count, if_pos h1, h2]
    refine ⟨hpc, ?_⟩
    rw [Anthem.extract_providers]
    split_ifs <;> simp [Anthem.page_walk, hpc]

/-- UHC environment whose second-to-last pagination item is unparsable. -/
def c6UhcEnv : UHCExtractEnv :=
  { current_url := "u", noResults := false, paginationPresent := true,
    pageItems := ["previous", "1", "2", "abc", "next"],
    pages := fun _ => [c6Card], navOk := fun _ => true }

/-- Witness for C6 on a UHC `ValueError` environment and the Anthem
missing-summary environment. -/
theorem claim6_witness :
    pyInt (c6UhcEnv.pageItems.getD (c6UhcEnv.pageItems.length - 2) "") = none ∧
    UHC.total_pages c6UhcEnv = 1 ∧
    Anthem.page_count c6EnvMissingInfo = none ∧
    Anthem.extract_providers c6EnvMissingInfo = [] := by
  refine ⟨by decide, claim6_page_count_amended.1 c6UhcEnv (by decide), ?_⟩
  have h := claim6_page_count_amended.2.2.2 c6EnvMissingInfo (by decide) (by decide)
  exact h

theorem not_space_of_wordChar (c : Char) (h : wordChar c = true) : pyIsSpace c = false := by
  cases hs : pyIsSpace c
  · rfl
  · exfalso
    simp only [pyIsSpace, Bool.or_eq_true, decide_eq_true_eq] at hs
    obtain ((((h1 | h1) | h1) | h1) | h1) | h1 := hs <;> subst h1 <;>
      exact absurd h (by decide)

theorem not_space_of_digitChar (c : Char) (h : digitChar c = true) : pyIsSpace c = false := by
  cases hs : pyIsSpace c
  · rfl
  · exfalso
    simp only [pyIsSpace, Bool.or_eq_true, decide_eq_true_eq] at hs
    obtain ((((h1 | h1) | h1) | h1) | h1) | h1 := hs <;> subst h1 <;>
      exact absurd h (by decide)

theorem matchStZip_shape (cs : List Char) (st zp : String)
    (h : matchStZip cs = some (st, zp)) :
    st.data.length = 2 ∧ st.data.all wordChar = true ∧
    zp.data.length = 5 ∧ zp.data.all digitChar = true := by
  rw [matchStZip] at h
  split at h
  next a b rest heq =>
    split_ifs at h with hw
    · split at h
      next d1 d2 d3 d4 d5 tail heq2 =>
        split_ifs at h with hd
        · simp only [Option.some.injEq, Prod.mk.injEq] at h
          obtain ⟨h1, h2⟩ := h
          subst h1
          subst h2
          obtain ⟨hw1, hw2⟩ := Bool.and_eq_true .. ▸ hw
          obtain ⟨⟨⟨⟨hd1, hd2⟩, hd3⟩, hd4⟩, hd5⟩ :=
            (by simpa only [Bool.and_eq_true] using hd :
              (((digitChar d1 = true ∧ digitChar d2 = true) ∧ digitChar d3 = true) ∧
                digitChar d4 = true) ∧ digitChar d5 = true)
          refine ⟨rfl, ?_, rfl, ?_⟩
          · simp [hw1, hw2]
          · simp [hd1, hd2, hd3, hd4, hd5]
      next => cases h
  next => cases h

theorem citySearchAux_shape :
    ∀ (cs acc : List Char) (city st zp : String),
      citySearchAux acc cs = some (city, st, zp) →
      st.data.length = 2 ∧ st.data.all wordChar = true ∧
      zp.data.length = 5 ∧ zp.data.all digitChar = true := by
  intro cs
  induction cs with
  | nil => intro acc city st zp h; cases h
  | cons c rest ih =>
    intro acc city st zp h
    rw [citySearchAux] at h
    by_cases hc : c = ','
    · rw [if_pos hc] at h
      by_cases ha : acc.isEmpty
      · rw [if_pos ha] at h
        exact ih [] city st zp h
      · rw [if_neg ha] at h
        cases hm : matchStZip rest with
        | none =>
          rw [hm] at h
          exact ih [] city st zp h
        | some pr =>
          obtain ⟨st', zp'⟩ := pr
          rw [hm] at h
          simp only [Option.some.injEq, Prod.mk.injEq] at h
          obtain ⟨h1, h2, h3⟩ := h
          subst h2
          subst h3
          exact matchStZip_shape rest _ _ hm
    · rw [if_neg hc] at h
      exact ih (c :: acc) city st zp h

theorem mem_of_mem_dropWhile (p : Char → Bool) :
    ∀ (l : List Char) (c : Char), c ∈ l.dropWhile p → c ∈ l := by
  intro l
  induction l with
  | nil => intro c h; simp at h
  | cons a t ih =>
    intro c h
    rw [List.dropWhile_cons] at h
    split_ifs at h with hp
    · exact List.mem_cons_of_mem a (ih c h)
    · exact h

theorem mem_of_mem_stripList (l : List Char) (c : Char) (h : c ∈ stripList l) : c ∈ l := by
  rw [stripList] at h
  rw [List.mem_reverse] at h
  have h2 := mem_of_mem_dropWhile pyIsSpace _ c h
  rw [List.mem_reverse] at h2
  exact mem_of_mem_dropWhile pyIsSpace _ c h2

theorem dropWhile_eq_self_of_all (p : Char → Bool) :
    ∀ (l : List Char), (∀ c ∈ l, p c = false) → l.dropWhile p = l := by
  intro l h
  cases l with
  | nil => rfl
  | cons a t =>
    rw [List.dropWhile_cons_of_neg]
    simp [h a (List.mem_cons_self a t)]

theorem stripList_eq_self_of_all (l : List Char) (h : ∀ c ∈ l, pyIsSpace c = false) :
    stripList l = l := by
  rw [stripList, dropWhile_eq_self_of_all pyIsSpace l h,
    dropWhile_eq_self_of_all pyIsSpace l.reverse (fun c hc => h c (List.mem_reverse.mp hc)),
    List.reverse_reverse]

theorem anthem_setAddress_shape (card : Card) (d : ProviderData)
    (hs : d.state = "") (hz : d.zip_code = "") :
    ((Anthem.setAddress card d).state = "" ∧ (Anthem.setAddress card d).zip_code = "") ∨
    ((Anthem.setAddress card d).state.data.length = 2 ∧
     (Anthem.setAddress card d).state.data.all wordChar = true ∧
     (Anthem.setAddress card d).zip_code.data.length = 5 ∧
     (Anthem.setAddress card d).zip_code.data.all digitChar = true) := by
  cases hat : card.addressText with
  | none =>
    simp only [Anthem.setAddress, hat]
    left
    exact ⟨hs, hz⟩
  | some t =>
    simp only [Anthem.setAddress, hat]
    by_cases hlen : 2 ≤ (pySplitChar '\n' (pyStrip t)).length
    · rw [if_pos hlen]
      cases hcs : citySearchAux [] ((pySplitChar '\n' (pyStrip t)).getD 1 "").data with
      | none =>
        left
        exact ⟨hs, hz⟩
      | some tri =>
        obtain ⟨city, st, zp⟩ := tri
        right
        obtain ⟨hl2, hw, hl5, hdg⟩ := citySearchAux_shape _ [] city st zp hcs
        have hstW : ∀ c ∈ st.data, pyIsSpace c = false := by
          intro ch hcmem
          exact not_space_of_wordChar ch (List.all_eq_true.mp hw ch hcmem)
        have hzpW : ∀ c ∈ zp.data, pyIsSpace c = false := by
          intro ch hcmem
          exact not_space_of_digitChar ch (List.all_eq_true.mp hdg ch hcmem)
        have hst : (pyStrip st).data = st.data := by
          rw [pyStrip, stripList_eq_self_of_all st.data hstW]
        have hzp : (pyStrip zp).data = zp.data := by
          rw [pyStrip, stripList_eq_self_of_all zp.data hzpW]
        refine ⟨?_, ?_, ?_, ?_⟩ <;> simp only [hst, hzp] <;> assumption
    · rw [if_neg hlen]
      left
      exact ⟨hs, hz⟩

theorem splitCharAux_no_sep (sep : Char) :
    ∀ (cs acc : List Char), (∀ c ∈ acc, c ≠ sep) →
      ∀ l ∈ splitCharAux sep acc cs, ∀ c ∈ l, c ≠ sep := by
  intro cs
  induction cs with
  | nil =>
    intro acc hacc l hl c hc
    rw [splitCharAux] at hl
    rw [List.mem_singleton] at hl
    subst hl
    exact hacc c (List.mem_reverse.mp hc)
  | cons a rest ih =>
    intro acc hacc l hl c hc
    rw [splitCharAux] at hl
    by_cases ha : a = sep
    · rw [if_pos ha] at hl
      rcases List.mem_cons.mp hl with h | h
      · subst h
        exact hacc c (List.mem_reverse.mp hc)
      · exact ih [] (by simp) l h c hc
    · rw [if_neg ha] at hl
      refine ih (a :: acc) ?_ l hl c hc
      intro x hx
      rcases List.mem_cons.mp hx with h | h
      · subst h; exact ha
      · exact hacc x h

theorem pySplitChar_no_sep (sep : Char) (s : String) (tok : String)
    (ht : tok ∈ pySplitChar sep s) : ∀ c ∈ tok.data, c ≠ sep := by
  rw [pySplitChar] at ht
  obtain ⟨l, hl, hmk⟩ := List.mem_map.mp ht
  subst hmk
  exact splitCharAux_no_sep sep s.data [] (by simp) l hl

theorem getD_mem_of_lt {α : Type} :
    ∀ (l : List α) (i : Nat) (d : α), i < l.length → l.getD i d ∈ l := by
  intro l
  induction l with
  | nil => intro i d h; simp at h
  | cons a t ih =>
    intro i d h
    cases i with
    | zero => exact List.mem_cons_self a t
    | succ i =>
      exact List.mem_cons_of_mem a (ih i d (by simpa using h))

theorem no_space_pyStrip_token (s : String) (i : Nat)
    (h : i < (pySplitChar ' ' s).length) :
    ¬ ' ' ∈ (pyStrip ((pySplitChar ' ' s).getD i "")).data := by
  intro hmem
  have hmem2 := mem_of_mem_stripList ((pySplitChar ' ' s).getD i "").data ' ' hmem
  exact pySplitChar_no_sep ' ' s _ (getD_mem_of_lt _ i "" h) ' ' hmem2 rfl

theorem uhc_setAddress_no_space (card : Card) (d : ProviderData)
    (hs : d.state = "") (hz : d.zip_code = "") :
    ¬ ' ' ∈ (UHC.setAddress card d).state.data ∧
    ¬ ' ' ∈ (UHC.setAddress card d).zip_code.data := by
  have base : ¬ ' ' ∈ d.state.data ∧ ¬ ' ' ∈ d.zip_code.data := by
    rw [hs, hz]
    exact ⟨by simp, by simp⟩
  cases hat : card.addressText with
  | none =>
    simp only [UHC.setAddress, hat]
    exact base
  | some t =>
    simp only [UHC.setAddress, hat]
    by_cases h1 : 2 ≤ (pySplitChar '\n' (pyStrip t)).length
    · rw [if_pos h1]
      by_cases h2 : 2 ≤ (pySplitChar ',' ((pySplitChar '\n' (pyStrip t)).getD 1 "")).length
      · rw [if_pos h2]
        by_cases h3 : 2 ≤ (pySplitChar ' '
            (pyStrip ((pySplitChar ',' ((pySplitChar '\n' (pyStrip t)).getD 1 "")).getD 1 ""))).length
        · rw [if_pos h3]
          exact ⟨no_space_pyStrip_token _ 0 (by omega), no_space_pyStrip_token _ 1 (by omega)⟩
        · rw [if_neg h3]
          exact base
      · rw [if_neg h2]
        exact base
    · rw [if_neg h1]
      exact base

/-- C1 (amended): Anthem's per-card extraction leaves `state`/`zip_code`
either both empty or shaped by its regex — exactly two word characters
(`\w`, so letters, digits or underscore, not only letters) and exactly
five digits; UHC's extraction performs no validation at all and copies
the raw first two space-separated tokens of the post-comma segment (so
its only guarantee is that neither field contains a space character), as
the counterexample's `state = "Illinois"`, `zip_code = "1234"` shows. -/
theorem claim1_state_zip_amended :
    (∀ (url : String) (card : Card) (d : ProviderData),
       Anthem.extract_provider_data url card = some d →
       (d.state = "" ∧ d.zip_code = "") ∨
       (d.state.data.length = 2 ∧ d.state.data.all wordChar = true ∧
        d.zip_code.data.length = 5 ∧ d.zip_code.data.all digitChar = true)) ∧
    (∀ (url : String) (card : Card) (d : ProviderData),
       UHC.extract_provider_data url card = some d →
       ¬ ' ' ∈ d.state.data ∧ ¬ ' ' ∈ d.zip_code.data) := by
  constructor
  · intro url card d h
    rw [Anthem.extract_provider_data] at h
    cases hr : card.raises with
    | true =>
      rw [hr] at h
      simp at h
    | false =>
      rw [hr] at h
      simp only [Bool.false_eq_true, if_false, Option.some.injEq] at h
      subst h
      have hv : addrView (setProviderId card (setAccepting card (setPracticeName card
          (setPhone card (Anthem.setAddress card (setSpecialties card (setProviderName card
            { network := "Anthem", url := url }))))))) =
          addrView (Anthem.setAddress card (setSpecialties card (setProviderName card
            { network := "Anthem", url := url }))) := by
        rw [addrView_setProviderId, addrView_setAccepting, addrView_setPracticeName,
          addrView_setPhone]
      simp only [addrView, Prod.mk.injEq] at hv
      obtain ⟨hva, hvc, hvs, hvz⟩ := hv
      rw [hvs, hvz]
      have hd0 : addrView (setSpecialties card (setProviderName card
          ({ network := "Anthem", url := url } : ProviderData))) = ("", "", "", "") := by
        rw [addrView_setSpecialties, addrView_setProviderName]
        rfl
      simp only [addrView, Prod.mk.injEq] at hd0
      exact anthem_setAddress_shape card _ hd0.2.2.1 hd0.2.2.2
  · intro url card d h
    rw [UHC.extract_provider_data] at h
    cases hr : card.raises with
    | true =>
      rw [hr] at h
      simp at h
    | false =>
      rw [hr] at h
      simp only [Bool.false_eq_true, if_false, Option.some.injEq] at h
      subst h
      have hv : addrView (setAccepting card (setSpecialties card (setPracticeName card
          (setPhone card (UHC.setAddress card (setProviderName card
            { network := "UHC", url := url })))))) =
          addrView (UHC.setAddress card (setProviderName card
            { network := "UHC", url := url })) := by
        rw [addrView_setAccepting, addrView_setSpecialties, addrView_setPracticeName,
          addrView_setPhone]
      simp only [addrView, Prod.mk.injEq] at hv
      obtain ⟨hva, hvc, hvs, hvz⟩ := hv
      rw [hvs, hvz]
      have hd0 : addrView (setProviderName card
          ({ network := "UHC", url := url } : ProviderData)) = ("", "", "", "") := by
        rw [addrView_setProviderName]
        rfl
      simp only [addrView, Prod.mk.injEq] at hd0
      exact uhc_setAddress_no_space card _ hd0.2.2.1 hd0.2.2.2

/-- The C1 well-formedness predicate as the spec words it: exactly two
letters. -/
def isTwoLetterState (s : String) : Bool :=
  decide (s.data.length = 2) && s.data.all letterChar

/-- The C1 well-formedness predicate as the spec words it: exactly five
digits. -/
def isFiveDigitZip (s : String) : Bool :=
  decide (s.data.length = 5) && s.data.all digitChar

/-- A UHC card whose second address line spells the state out and carries
a four-digit zip. -/
def c1Card : Card := { addressText := some ("1 Main St\nSpringfield, Illinois 1234") }

/-- C1 is false as stated: UHC emits this card's record with
`state = "Illinois"` and `zip_code = "1234"` — neither well-formed nor
empty. -/
theorem claim1_counterexample :
    (UHC.extract_provider_data ("u") c1Card).map (fun d => (d.state, d.zip_code)) =
      some ("Illinois", "1234") ∧
    isTwoLetterState ("Illinois") = false ∧ ¬ ("Illinois" = "") ∧
    isFiveDigitZip ("1234") = false ∧ ¬ ("1234" = "") := by
  refine ⟨by decide, by decide, by decide, by decide, by decide⟩

/-- An Anthem card with a regular address block. -/
def c1WitnessCard : Card :=
  { nameText := some ("Dr W"), addressText := some ("2 B Ave\nTown, IL 62704") }

/-- The record Anthem extracts from `c1WitnessCard`. -/
def c1WitnessRecord : ProviderData :=
  { provider_name := "Dr W", address := "2 B Ave", city := "Town", state := "IL",
    zip_code := "62704", network := "Anthem", url := "u" }

theorem claim1_witness :
    Anthem.extract_provider_data ("u") c1WitnessCard = some c1WitnessRecord ∧
    ((c1WitnessRecord.state = "" ∧ c1WitnessRecord.zip_code = "") ∨
     (c1WitnessRecord.state.data.length = 2 ∧
      c1WitnessRecord.state.data.all wordChar = true ∧
      c1WitnessRecord.zip_code.data.length = 5 ∧
      c1WitnessRecord.zip_code.data.all digitChar = true)) ∧
    (¬ ' ' ∈ c1WitnessRecord.state.data ∧ ¬ ' ' ∈ c1WitnessRecord.zip_code.data) :=
  ⟨by decide,
   claim1_state_zip_amended.1 ("u") c1WitnessCard c1WitnessRecord (by decide),
   claim1_state_zip_amended.2 ("u")
     ({ addressText := some ("2 B Ave\nTown, IL 62704") })
     ({ address := "2 B Ave", city := "Town", state := "IL", zip_code := "62704",
        network := "UHC", url := "u" }) (by decide)⟩
